import Mathlib

/-!
Shallow embedding of `nitter_to_telegram_runonce.py`.

The script polls Nitter profile pages, extracts tweets, relays them to a
Telegram chat and tracks a per-account cursor (last forwarded tweet id).
External effects (HTTP fetch, HTML parsing via BeautifulSoup, HEAD probes,
streaming GET downloads, Telegram send calls, `urlparse`/`pathlib` suffix
computation, Python string hashing) are modelled as oracle fields of an
`Env` record; the control flow, state updates and message construction of
the script itself are translated directly from the source.

Python's `int(s)` on a string is modelled by `String.toInt?`: `none` models
a raised `ValueError`.  `handle_account` returns `Except Unit _`, where
`.error ()` models an exception escaping to the `try/except` in `main`.
The media-relay loop is given a small-step trace of `Event`s so that
claims of the form "X is never invoked" can be stated.
-/

/-- A parsed tweet record, as produced by `parse_tweets_from_nitter`
(a dict `{"id": tid, "url": tweet_url, "text": text, "media": [...]}`). -/
structure Post where
  id : String
  url : String
  text : String
  media : List String
deriving Repr, DecidableEq

/-- Digit run of Python `int(s)`: `none` models a raised `ValueError`. -/
def digitsToNat (acc : Nat) : List Char → Option Nat
  | [] => some acc
  | c :: cs => if c.isDigit then digitsToNat (acc * 10 + (c.toNat - 48)) cs else none

/-- Python `int(s)` on a string: an optional leading minus sign followed by
at least one decimal digit (the forms `int()` accepts that can occur in
tweet ids and stored cursors); `none` models a raised `ValueError`. -/
def pyInt? (s : String) : Option Int :=
  match s.data with
  | [] => none
  | '-' :: cs => if cs.isEmpty then none else (digitsToNat 0 cs).map (fun n => -(n : Int))
  | cs => (digitsToNat 0 cs).map (fun n => (n : Int))

/-- Integer value of an id string; only meaningful when `(pyInt? s).isSome`
(the script raises otherwise, which the guards below model). -/
def pyInt (s : String) : Int := (pyInt? s).getD 0

/-- Process configuration derived from environment variables:
`NITTER_BASE` (already `rstrip`ped of `/`), `TELEGRAM_CHAT_ID`,
`MAX_DOWNLOAD_BYTES`. -/
structure Cfg where
  base : String
  chatId : String
  maxBytes : Nat
deriving Repr, DecidableEq

/-- Response observed by the HEAD probe inside `get_head_size`;
the oracle returns `none` when the request itself raises. -/
structure HeadResp where
  status : Nat
  contentLength : Option String
deriving Repr, DecidableEq

/-- `get_head_size`: returns the parsed `Content-Length` when the status is
200 and the header is present and parses as an int; `none` otherwise
(any exception is caught and turned into `None`). -/
def get_head_size (resp : Option HeadResp) : Option Int :=
  match resp with
  | none => none
  | some r =>
    if r.status = 200 then
      match r.contentLength with
      | some v => pyInt? v
      | none => none
    else none

/-- Outcome of the streaming GET inside `download_media`.
`opened = false` models an exception before the destination file is
created (connection error or `raise_for_status`).  `chunks` are the chunk
sizes delivered by `iter_content` before the stream ended or raised;
`err = true` models an exception after the listed chunks were written. -/
structure DLResult where
  opened : Bool
  chunks : List Nat
  err : Bool
deriving Repr, DecidableEq

/-- The write loop of `download_media`: writes each non-empty chunk and
aborts (returns `false`) as soon as the file size exceeds
`MAX_DOWNLOAD_BYTES + 5*1024*1024`.  The file size after a write equals
the accumulated written bytes. -/
def writeChunks (maxBytes : Nat) : List Nat → Nat → Bool
  | [], _ => true
  | c :: cs, written =>
    if c = 0 then writeChunks maxBytes cs written
    else
      if written + c > maxBytes + 5*1024*1024 then false
      else writeChunks maxBytes cs (written + c)

/-- `download_media(url, dest) -> bool`: `false` on a failed request, a
mid-stream size abort, or a mid-stream exception; `true` otherwise. -/
def download_media (dl : DLResult) (maxBytes : Nat) : Bool :=
  if !dl.opened then false
  else writeChunks maxBytes dl.chunks 0 && !dl.err

/-- Observable actions of the media relay and the orchestrator. -/
inductive Event where
  | sendText (msg : String)
  | sendPhoto (path : String) (caption : Option String)
  | sendVideo (path : String) (caption : Option String)
  | download (url : String) (dest : String)
  | unlink (path : String)
  | save
deriving Repr, DecidableEq

/-- Oracles for the external world: page fetch (`fetch_html`), HTML
parsing (`parse_tweets_from_nitter`, which uses BeautifulSoup), the HEAD
probe, the streaming GET, Telegram send outcomes, the
`pathlib.Path(urlparse(u).path).suffix` computation and `abs(hash(u))`. -/
structure Env where
  fetch : String → Option String
  parse : String → List Post
  head : String → Option HeadResp
  dl : String → DLResult
  sendTextOk : String → Bool
  sendPhotoOk : String → Bool
  sendVideoOk : String → Bool
  ext : String → String
  hashAbs : String → Nat

/-- `urljoin(NITTER_BASE, murl)` for a root-relative `murl` (the only case
the script rewrites: `if murl.startswith("/")`); `NITTER_BASE` carries no
trailing slash, so the join is string concatenation. -/
def resolveMediaUrl (base murl : String) : String :=
  if murl.startsWith "/" then base ++ murl else murl

/-- Python truthiness test `if size and size > MAX_DOWNLOAD_BYTES:`
(`size` is falsy when `None` or `0`). -/
def tooBig (size : Option Int) (maxBytes : Nat) : Bool :=
  match size with
  | some n => n != 0 && n > (maxBytes : Int)
  | none => false

def imageExts : List String := [".jpg", ".jpeg", ".png", ".webp"]

def videoExts : List String := [".mp4", ".mov", ".webm", ".gif"]

/-- `ext = pathlib.Path(urlparse(murl).path).suffix or ".bin"` (line 186);
the suffix itself is the `Env.ext` oracle. -/
def mediaExt (env : Env) (murl : String) : String :=
  if env.ext murl = "" then ".bin" else env.ext murl

/-- `fname = TEMP_DIR / f"{username}_{t['id']}_{abs(hash(murl))}{ext}"`
(line 187). -/
def mediaFname (env : Env) (username tid murl : String) : String :=
  "tmp_media/" ++ username ++ "_" ++ tid ++ "_" ++ toString (env.hashAbs murl)
    ++ mediaExt env murl

/-- The upload dispatch on file extension (lines 193-198): photo for image
extensions, video for video/animation extensions, otherwise a text message
with the raw link.  Returns the success flag `ok2` and the emitted event. -/
def sendResult (env : Env) (fname caption murl : String) (sentAny : Bool) : Bool × Event :=
  if imageExts.contains (mediaExt env murl).toLower then
    (env.sendPhotoOk fname, Event.sendPhoto fname (if sentAny then none else some caption))
  else if videoExts.contains (mediaExt env murl).toLower then
    (env.sendVideoOk fname, Event.sendVideo fname (if sentAny then none else some caption))
  else
    (env.sendTextOk (caption ++ "\n\nMedia: " ++ murl),
     Event.sendText (caption ++ "\n\nMedia: " ++ murl))

/-- One iteration of the per-media-item loop in `handle_account` (lines
177-204).  Returns the updated `sent_any` flag and the emitted events. -/
def process_media_item (env : Env) (cfg : Cfg) (username tid caption : String)
    (murl0 : String) (sentAny : Bool) : Bool × List Event :=
  if tooBig (get_head_size (env.head (resolveMediaUrl cfg.base murl0))) cfg.maxBytes then
    (true, [Event.sendText (caption ++ "\n\nMedia too large to upload: "
      ++ resolveMediaUrl cfg.base murl0)])
  else if !(download_media (env.dl (resolveMediaUrl cfg.base murl0)) cfg.maxBytes)
      || !(env.dl (resolveMediaUrl cfg.base murl0)).opened then
    (sentAny,
     [Event.download (resolveMediaUrl cfg.base murl0)
        (mediaFname env username tid (resolveMediaUrl cfg.base murl0)),
      Event.sendText (caption ++ "\n\n(Couldn't download media: "
        ++ resolveMediaUrl cfg.base murl0 ++ ")")])
  else
    (sentAny || (sendResult env (mediaFname env username tid (resolveMediaUrl cfg.base murl0))
        caption (resolveMediaUrl cfg.base murl0) sentAny).1,
     [Event.download (resolveMediaUrl cfg.base murl0)
        (mediaFname env username tid (resolveMediaUrl cfg.base murl0)),
      (sendResult env (mediaFname env username tid (resolveMediaUrl cfg.base murl0))
        caption (resolveMediaUrl cfg.base murl0) sentAny).2,
      Event.unlink (mediaFname env username tid (resolveMediaUrl cfg.base murl0))])

/-- The media loop folded over a post's media list. -/
def process_media_list (env : Env) (cfg : Cfg) (username tid caption : String) :
    List String → Bool → Bool × List Event
  | [], sentAny => (sentAny, [])
  | m :: ms, sentAny =>
    let r := process_media_item env cfg username tid caption m sentAny
    let rest := process_media_list env cfg username tid caption ms r.1
    (rest.1, r.2 ++ rest.2)

/-- Per-post body of the loop in `handle_account` (lines 174-209), without
the cursor update: caption construction, the media loop, the no-media text
message, and the all-media-failed fallback. -/
def process_post (env : Env) (cfg : Cfg) (username : String) (t : Post) : List Event :=
  let caption := (username ++ " — " ++ t.url ++ "\n\n" ++ t.text).take 1024
  if t.media.isEmpty then [Event.sendText caption]
  else
    let r := process_media_list env cfg username t.id caption t.media false
    r.2 ++ (if r.1 then [] else [Event.sendText (caption ++ "\n\n(All media failed to send)")])

/-- The in-memory cursor store: `state` dict mapping username to last
forwarded tweet id. -/
def StateMap : Type := String → Option String

/-- `state[username] = v`. -/
def setCursor (st : StateMap) (k v : String) : StateMap :=
  fun k' => if k' = k then some v else st k'

/-- Line 167: `sorted(tweets, key=lambda t: int(t["id"]))` (ascending,
compared as integers). -/
def tweetsSorted (tweets : List Post) : List Post :=
  tweets.mergeSort (fun a b => decide (pyInt a.id ≤ pyInt b.id))

/-- Line 169 filter predicate:
`last_seen is None or int(t["id"]) > int(last_seen)`. -/
def newer (lastSeen : Option String) (t : Post) : Bool :=
  match lastSeen with
  | none => true
  | some c => decide (pyInt t.id > pyInt c)

/-- Lines 167-169: the delta selector `to_send`. -/
def to_send (tweets : List Post) (lastSeen : Option String) : List Post :=
  (tweetsSorted tweets).filter (newer lastSeen)

/-- All ids convert with `int()` without raising (evaluated by the sort at
line 167 before any state mutation). -/
def idsOk (tweets : List Post) : Bool :=
  tweets.all fun t => (pyInt? t.id).isSome

/-- The stored cursor converts with `int()` without raising (evaluated by
the filter at line 169, before any state mutation, whenever it exists). -/
def cursorOk (lastSeen : Option String) : Bool :=
  match lastSeen with
  | none => true
  | some c => (pyInt? c).isSome

/-- The per-post loop (lines 173-211): relay each selected post, then
advance the cursor to its id (`state[username] = t["id"]`, line 210). -/
def process_posts (env : Env) (cfg : Cfg) (username : String) :
    List Post → StateMap → StateMap × List Event
  | [], st => (st, [])
  | t :: ts, st =>
    let ev := process_post env cfg username t
    let st' := setCursor st username t.id
    let rest := process_posts env cfg username ts st'
    (rest.1, ev ++ rest.2)

/-- `nitter_user_url`: `f"{NITTER_BASE}/{username}"`. -/
def nitter_user_url (cfg : Cfg) (username : String) : String :=
  cfg.base ++ "/" ++ username

/-- `handle_account(username, state)` (lines 157-211).  `.error ()` models
a `ValueError` escaping from `int()` at lines 167/169 (the only uncaught
exception source in the function); it reaches the `try/except` in `main`
before any state mutation or send. -/
def handle_account (env : Env) (cfg : Cfg) (username : String) (st : StateMap) :
    Except Unit (StateMap × List Event) :=
  match env.fetch (nitter_user_url cfg username) with
  | none => .ok (st, [])
  | some html =>
    if html = "" then .ok (st, [])
    else if (env.parse html).isEmpty then .ok (st, [])
    else if !idsOk (env.parse html) then .error ()
    else if !cursorOk (st username) then .error ()
    else if (to_send (env.parse html) (st username)).isEmpty then .ok (st, [])
    else .ok (process_posts env cfg username (to_send (env.parse html) (st username)) st)

/-- The `try/except` wrapper around `handle_account` in `main` (lines
220-223): an exception is logged and leaves the state untouched. -/
def try_handle (env : Env) (cfg : Cfg) (username : String) (st : StateMap) :
    StateMap × List Event :=
  match handle_account env cfg username st with
  | .ok r => r
  | .error _ => (st, [])

/-- The account loop in `main` (lines 219-223). -/
def runAccounts (env : Env) (cfg : Cfg) : List String → StateMap → StateMap × List Event
  | [], st => (st, [])
  | a :: as, st =>
    let r := try_handle env cfg a st
    let rest := runAccounts env cfg as r.1
    (rest.1, r.2 ++ rest.2)

/-- `main` (lines 213-225): with no accounts it logs and returns before
loading or saving any state; otherwise it runs every account under the
failure boundary and then calls `save_state` exactly once. -/
def main_run (env : Env) (cfg : Cfg) (accounts : List String) (st : StateMap) :
    StateMap × List Event :=
  if accounts.isEmpty then (st, [])
  else
    let r := runAccounts env cfg accounts st
    (r.1, r.2 ++ [Event.save])

/-- Several complete runs in sequence, the saved cursor store of one run
being the store the next run loads (the JSON round-trip through the state
file is assumed faithful). -/
def multi_run (cfg : Cfg) (runs : List (Env × List String)) (st : StateMap) : StateMap :=
  runs.foldl (fun s er => (main_run er.1 cfg er.2 s).1) st

/-- JSON documents, as produced by `json.loads`. -/
inductive Json where
  | null
  | bool (b : Bool)
  | num (n : Int)
  | str (s : String)
  | arr (xs : List Json)
  | obj (kvs : List (String × Json))

/-- Whether a JSON document is an object (a mapping). -/
def Json.isObj : Json → Bool
  | .obj _ => true
  | _ => false

/-- `load_state` (lines 45-52): `file` is the state file's contents
(`none` when the file is absent); `loads` models `json.loads`, `none`
meaning it raised.  The parsed document is returned unchecked; absence or
a parse error yields `{}`. -/
def load_state (file : Option String) (loads : String → Option Json) : Json :=
  match file with
  | none => Json.obj []
  | some txt =>
    match loads txt with
    | none => Json.obj []
    | some j => j

/-! ### Concrete sample data used to instantiate the theorems -/

def post100 : Post :=
  { id := "100", url := "https://nitter.net/alice/status/100", text := "hello", media := [] }

def post101 : Post :=
  { id := "101", url := "https://nitter.net/alice/status/101", text := "pic",
    media := ["/pic/a.jpg"] }

def postBad : Post := { id := "x", url := "u", text := "t", media := [] }

def cfg0 : Cfg := { base := "https://nitter.net", chatId := "42", maxBytes := 1000 }

def env0 : Env :=
  { fetch := fun _ => some "page"
    parse := fun _ => [post101, post100]
    head := fun _ => none
    dl := fun _ => { opened := true, chunks := [10], err := false }
    sendTextOk := fun _ => true
    sendPhotoOk := fun _ => true
    sendVideoOk := fun _ => true
    ext := fun _ => ".jpg"
    hashAbs := fun _ => 7 }

def envErr : Env := { env0 with parse := fun _ => [postBad] }

def envBig : Env :=
  { env0 with head := fun _ => some { status := 200, contentLength := some "2000" } }

def envAbort : Env :=
  { env0 with dl := fun _ => { opened := true, chunks := [6*1024*1024], err := false } }

def envNoFile : Env :=
  { env0 with dl := fun _ => { opened := false, chunks := [], err := false } }

def envNoFetch : Env := { env0 with fetch := fun _ => none }

def envNoTweets : Env := { env0 with parse := fun _ => [] }

def st0 : StateMap := fun _ => none

def st1 : StateMap := fun k => if k = "alice" then some "50" else none

def st2 : StateMap := fun k => if k = "alice" then some "200" else none

def loadsNum3 : String → Option Json :=
  fun s => if s = "3" then some (Json.num 3) else none

/-! ### Helper lemmas about the delta selector -/

theorem idLe_trans : ∀ (a b c : Post),
    (decide (pyInt a.id ≤ pyInt b.id)) = true →
    (decide (pyInt b.id ≤ pyInt c.id)) = true →
    (decide (pyInt a.id ≤ pyInt c.id)) = true := by
  intro a b c hab hbc
  simp only [decide_eq_true_eq] at *
  exact le_trans hab hbc

theorem idLe_total : ∀ (a b : Post),
    ((decide (pyInt a.id ≤ pyInt b.id)) || (decide (pyInt b.id ≤ pyInt a.id))) = true := by
  intro a b
  simp only [Bool.or_eq_true, decide_eq_true_eq]
  exact le_total _ _

theorem tweetsSorted_perm (tweets : List Post) :
    List.Perm (tweetsSorted tweets) tweets :=
  List.mergeSort_perm tweets _

theorem tweetsSorted_sorted (tweets : List Post) :
    (tweetsSorted tweets).Pairwise (fun a b => pyInt a.id ≤ pyInt b.id) := by
  have h := List.sorted_mergeSort idLe_trans idLe_total tweets
  exact h.imp fun hab => of_decide_eq_true hab

theorem mem_tweetsSorted {t : Post} {tweets : List Post} :
    t ∈ tweetsSorted tweets ↔ t ∈ tweets :=
  List.mem_mergeSort

theorem to_send_perm (tweets : List Post) (lastSeen : Option String) :
    List.Perm (to_send tweets lastSeen) (tweets.filter (newer lastSeen)) :=
  (tweetsSorted_perm tweets).filter _

theorem to_send_sorted (tweets : List Post) (lastSeen : Option String) :
    (to_send tweets lastSeen).Pairwise (fun a b => pyInt a.id ≤ pyInt b.id) :=
  List.Pairwise.sublist ((tweetsSorted tweets).filter_sublist) (tweetsSorted_sorted tweets)

theorem mem_to_send {t : Post} {tweets : List Post} {lastSeen : Option String} :
    t ∈ to_send tweets lastSeen ↔ t ∈ tweets ∧ newer lastSeen t = true := by
  unfold to_send
  rw [List.mem_filter, mem_tweetsSorted]

theorem newer_none (t : Post) : newer none t = true := rfl

theorem newer_some {t : Post} {c : String} :
    newer (some c) t = true ↔ pyInt c < pyInt t.id := by
  simp [newer]

/-- In a list sorted ascending by numeric id, every element's id value is at
most that of the last element. -/
theorem pyInt_le_getLast : ∀ (l : List Post) (hne : l ≠ []),
    l.Pairwise (fun a b => pyInt a.id ≤ pyInt b.id) →
    ∀ a ∈ l, pyInt a.id ≤ pyInt (l.getLast hne).id := by
  intro l
  induction l with
  | nil => intro hne; exact absurd rfl hne
  | cons x xs ih =>
    intro hne hp a ha
    cases xs with
    | nil =>
      have : a = x := by simpa using ha
      subst this
      simp [List.getLast]
    | cons y ys =>
      rw [List.getLast_cons (by simp)]
      rcases List.mem_cons.mp ha with rfl | ha'
      · exact (List.pairwise_cons.mp hp).1 _ (List.getLast_mem (by simp))
      · exact ih (by simp) (List.pairwise_cons.mp hp).2 a ha'

/-! ### Helper lemmas about the per-post loop and the cursor store -/

theorem setCursor_self (st : StateMap) (k v : String) : setCursor st k v k = some v := by
  simp [setCursor]

theorem setCursor_other (st : StateMap) (k v k' : String) (h : k' ≠ k) :
    setCursor st k v k' = st k' := by
  simp [setCursor, h]

/-- The state component of the per-post loop is a fold of cursor updates:
the sends never touch the state. -/
theorem process_posts_fst (env : Env) (cfg : Cfg) (u : String) :
    ∀ (ts : List Post) (st : StateMap),
    (process_posts env cfg u ts st).1 = ts.foldl (fun s t => setCursor s u t.id) st := by
  intro ts
  induction ts with
  | nil => intro st; rfl
  | cons t ts ih => intro st; simpa [process_posts] using ih (setCursor st u t.id)

theorem foldl_setCursor_self (u : String) :
    ∀ (ts : List Post) (st : StateMap) (hne : ts ≠ []),
    (ts.foldl (fun s t => setCursor s u t.id) st) u = some (ts.getLast hne).id := by
  intro ts
  induction ts with
  | nil => intro st hne; exact absurd rfl hne
  | cons t ts ih =>
    intro st hne
    cases ts with
    | nil => simp [setCursor]
    | cons t' ts' =>
      rw [List.foldl_cons, List.getLast_cons (by simp)]
      exact ih (setCursor st u t.id) (by simp)

theorem foldl_setCursor_other (u u' : String) (h : u' ≠ u) :
    ∀ (ts : List Post) (st : StateMap),
    (ts.foldl (fun s t => setCursor s u t.id) st) u' = st u' := by
  intro ts
  induction ts with
  | nil => intro st; rfl
  | cons t ts ih =>
    intro st
    rw [List.foldl_cons, ih (setCursor st u t.id), setCursor_other _ _ _ _ h]

/-! ### C1 -/

/-- C1: For every list of extracted posts whose ids are integer-like strings
and every cursor value, the delta selector returns exactly the posts whose
identifier, compared as an integer, is strictly greater than the stored
cursor (every post when no cursor exists for the account), sorted ascending
by numeric identifier value (oldest-first). -/
theorem C1_delta_selector (tweets : List Post) (lastSeen : Option String)
    (hids : idsOk tweets = true) (hcur : cursorOk lastSeen = true) :
    List.Perm (to_send tweets lastSeen) (tweets.filter (newer lastSeen))
    ∧ (to_send tweets lastSeen).Pairwise (fun a b => pyInt a.id ≤ pyInt b.id)
    ∧ (∀ t, t ∈ to_send tweets lastSeen ↔
        (t ∈ tweets ∧ ∀ c, lastSeen = some c → pyInt c < pyInt t.id))
    ∧ (lastSeen = none → List.Perm (to_send tweets lastSeen) tweets) := by
  refine ⟨to_send_perm tweets lastSeen, to_send_sorted tweets lastSeen, ?_, ?_⟩
  · intro t
    rw [mem_to_send]
    constructor
    · rintro ⟨ht, hn⟩
      refine ⟨ht, ?_⟩
      rintro c rfl
      exact newer_some.mp hn
    · rintro ⟨ht, hn⟩
      refine ⟨ht, ?_⟩
      cases lastSeen with
      | none => exact newer_none t
      | some c => exact newer_some.mpr (hn c rfl)
  · rintro rfl
    have : tweets.filter (newer none) = tweets :=
      List.filter_eq_self.mpr fun t _ => newer_none t
    simpa [this] using to_send_perm tweets none

/-- Witness for C1 at a concrete posts list and cursor. -/
theorem C1_delta_selector_witness :
    idsOk [post101, post100] = true ∧ cursorOk (some "100") = true ∧
    (List.Perm (to_send [post101, post100] (some "100"))
        ([post101, post100].filter (newer (some "100")))
     ∧ (to_send [post101, post100] (some "100")).Pairwise
         (fun a b => pyInt a.id ≤ pyInt b.id)
     ∧ (∀ t, t ∈ to_send [post101, post100] (some "100") ↔
         (t ∈ [post101, post100] ∧ ∀ c, (some "100" : Option String) = some c →
           pyInt c < pyInt t.id))
     ∧ ((some "100" : Option String) = none →
         List.Perm (to_send [post101, post100] (some "100")) [post101, post100])) :=
  ⟨by decide, by decide, C1_delta_selector [post101, post100] (some "100") (by decide) (by decide)⟩

/-! ### Helper lemmas about handle_account -/

theorem tweetsSorted_ne_nil {tweets : List Post} (h : tweets ≠ []) :
    tweetsSorted tweets ≠ [] := by
  intro h0
  apply h
  have hp := tweetsSorted_perm tweets
  rw [h0] at hp
  exact hp.symm.eq_nil

/-- `handle_account` on the path where everything parses and converts. -/
theorem handle_account_ok (env : Env) (cfg : Cfg) (u : String) (st : StateMap) (html : String)
    (hf : env.fetch (nitter_user_url cfg u) = some html) (hh : html ≠ "")
    (hne : env.parse html ≠ []) (hids : idsOk (env.parse html) = true)
    (hcur : cursorOk (st u) = true) :
    handle_account env cfg u st =
      (if (to_send (env.parse html) (st u)).isEmpty then .ok (st, [])
       else .ok (process_posts env cfg u (to_send (env.parse html) (st u)) st)) := by
  unfold handle_account
  rw [hf]
  simp [hh, hids, hcur, List.isEmpty_iff, hne]

/-- Any successful `handle_account` either leaves the account's cursor alone
or sets it to the id of a post selected as newer than the stored cursor. -/
theorem handle_account_cursor (env : Env) (cfg : Cfg) (u : String) (st : StateMap) :
    ∀ r, handle_account env cfg u st = .ok r →
      r.1 u = st u ∨ ∃ t, t ∈ to_send (env.parse ((env.fetch (nitter_user_url cfg u)).getD ""))
        (st u) ∧ r.1 u = some t.id := by
  intro r hr
  unfold handle_account at hr
  split at hr
  · cases hr; exact Or.inl rfl
  · rename_i html hf
    rw [hf]
    simp only [Option.getD_some]
    split at hr
    · cases hr; exact Or.inl rfl
    · split at hr
      · cases hr; exact Or.inl rfl
      · split at hr
        · cases hr
        · split at hr
          · cases hr
          · split at hr
            · cases hr; exact Or.inl rfl
            · cases hr
              rename_i hselne
              right
              have hne : to_send (env.parse html) (st u) ≠ [] := by
                intro h0
                rw [h0] at hselne
                exact hselne rfl
              refine ⟨(to_send (env.parse html) (st u)).getLast hne, List.getLast_mem hne, ?_⟩
              rw [process_posts_fst]
              exact foldl_setCursor_self u _ st hne

/-- A successful `handle_account` never touches any other account's cursor. -/
theorem handle_account_frame (env : Env) (cfg : Cfg) (u : String) (st : StateMap) :
    ∀ r, handle_account env cfg u st = .ok r → ∀ u', u' ≠ u → r.1 u' = st u' := by
  intro r hr u' hu'
  unfold handle_account at hr
  split at hr
  · cases hr; rfl
  · split at hr
    · cases hr; rfl
    · split at hr
      · cases hr; rfl
      · split at hr
        · cases hr
        · split at hr
          · cases hr
          · split at hr
            · cases hr; rfl
            · cases hr
              rw [process_posts_fst]
              exact foldl_setCursor_other u u' hu' _ st

theorem try_handle_frame (env : Env) (cfg : Cfg) (u : String) (st : StateMap)
    (u' : String) (h : u' ≠ u) : (try_handle env cfg u st).1 u' = st u' := by
  unfold try_handle
  cases hh : handle_account env cfg u st with
  | error e => rfl
  | ok r => exact handle_account_frame env cfg u st r hh u' h

/-- Once stored, one guarded `handle_account` call can only keep or
numerically increase the account's cursor. -/
theorem try_handle_mono (env : Env) (cfg : Cfg) (u : String) (st : StateMap) (c : String)
    (h : st u = some c) :
    ∃ c', (try_handle env cfg u st).1 u = some c' ∧ pyInt c ≤ pyInt c' := by
  unfold try_handle
  cases hh : handle_account env cfg u st with
  | error e => exact ⟨c, h, le_refl _⟩
  | ok r =>
    rcases handle_account_cursor env cfg u st r hh with heq | ⟨t, ht, heq⟩
    · exact ⟨c, heq.trans h, le_refl _⟩
    · refine ⟨t.id, heq, ?_⟩
      have := (mem_to_send.mp ht).2
      rw [h] at this
      exact le_of_lt (newer_some.mp this)

theorem runAccounts_mono (env : Env) (cfg : Cfg) (u : String) :
    ∀ (accs : List String) (st : StateMap) (c : String), st u = some c →
    ∃ c', (runAccounts env cfg accs st).1 u = some c' ∧ pyInt c ≤ pyInt c' := by
  intro accs
  induction accs with
  | nil => intro st c h; exact ⟨c, h, le_refl _⟩
  | cons a as ih =>
    intro st c h
    by_cases hau : u = a
    · subst hau
      obtain ⟨c₁, h₁, hle₁⟩ := try_handle_mono env cfg u st c h
      obtain ⟨c₂, h₂, hle₂⟩ := ih (try_handle env cfg u st).1 c₁ h₁
      exact ⟨c₂, h₂, le_trans hle₁ hle₂⟩
    · have h₁ : (try_handle env cfg a st).1 u = some c := by
        rw [try_handle_frame env cfg a st u hau, h]
      obtain ⟨c₂, h₂, hle₂⟩ := ih (try_handle env cfg a st).1 c h₁
      exact ⟨c₂, h₂, hle₂⟩

theorem main_run_mono (env : Env) (cfg : Cfg) (u : String)
    (accounts : List String) (st : StateMap) (c : String) (h : st u = some c) :
    ∃ c', (main_run env cfg accounts st).1 u = some c' ∧ pyInt c ≤ pyInt c' := by
  unfold main_run
  split
  · exact ⟨c, h, le_refl _⟩
  · exact runAccounts_mono env cfg u accounts st c h

theorem multi_run_mono (cfg : Cfg) (u : String) :
    ∀ (runs : List (Env × List String)) (st : StateMap) (c : String), st u = some c →
    ∃ c', multi_run cfg runs st u = some c' ∧ pyInt c ≤ pyInt c' := by
  intro runs
  induction runs with
  | nil => intro st c h; exact ⟨c, h, le_refl _⟩
  | cons er rs ih =>
    intro st c h
    obtain ⟨c₁, h₁, hle₁⟩ := main_run_mono er.1 cfg u er.2 st c h
    obtain ⟨c₂, h₂, hle₂⟩ := ih (main_run er.1 cfg er.2 st).1 c₁ h₁
    exact ⟨c₂, h₂, le_trans hle₁ hle₂⟩

/-! ### C2 -/

/-- C2: For every selected post, after its media-relay processing completes
the account's cursor entry equals that post's identifier, regardless of
whether any send or download attempt for the post succeeded; consequently,
for an account with no stored cursor and a non-empty extracted list, the
cursor at the end of handling equals the maximum numeric identifier among
the extracted posts. -/
theorem C2_cursor_advance :
    (∀ (env : Env) (cfg : Cfg) (u : String) (st : StateMap) (done : List Post) (t : Post),
       (process_posts env cfg u (done ++ [t]) st).1 u = some t.id)
    ∧ (∀ (env : Env) (cfg : Cfg) (u : String) (st : StateMap) (html : String),
       env.fetch (nitter_user_url cfg u) = some html → html ≠ "" →
       idsOk (env.parse html) = true → env.parse html ≠ [] → st u = none →
       ∃ r, handle_account env cfg u st = .ok r ∧
         ∃ t0, t0 ∈ env.parse html ∧ r.1 u = some t0.id ∧
           ∀ t ∈ env.parse html, pyInt t.id ≤ pyInt t0.id) := by
  constructor
  · intro env cfg u st done t
    rw [process_posts_fst, List.foldl_append]
    simp [setCursor]
  · intro env cfg u st html hf hh hids hne hcur
    have hc : cursorOk (st u) = true := by rw [hcur]; rfl
    have hsel : to_send (env.parse html) (st u) = tweetsSorted (env.parse html) := by
      rw [hcur]
      unfold to_send
      exact List.filter_eq_self.mpr fun t _ => newer_none t
    have hsne : tweetsSorted (env.parse html) ≠ [] := tweetsSorted_ne_nil hne
    have hE : (tweetsSorted (env.parse html)).isEmpty = false := by
      cases h : tweetsSorted (env.parse html) with
      | nil => exact absurd h hsne
      | cons a l => rfl
    have hmain := handle_account_ok env cfg u st html hf hh hne hids hc
    rw [hsel, hE] at hmain
    simp only [Bool.false_eq_true, if_false] at hmain
    refine ⟨_, hmain, ?_⟩
    refine ⟨(tweetsSorted (env.parse html)).getLast hsne, ?_, ?_, ?_⟩
    · exact mem_tweetsSorted.mp (List.getLast_mem hsne)
    · rw [process_posts_fst]
      exact foldl_setCursor_self u _ st hsne
    · intro t ht
      exact pyInt_le_getLast _ hsne (tweetsSorted_sorted (env.parse html)) t
        (mem_tweetsSorted.mpr ht)

/-- Witness for C2 at a concrete environment: account with no stored
cursor, two posts with ids 100 and 101. -/
theorem C2_cursor_advance_witness :
    ((process_posts env0 cfg0 "alice" ([post100] ++ [post101]) st0).1 "alice" = some post101.id)
    ∧ (env0.fetch (nitter_user_url cfg0 "alice") = some "page"
       ∧ ("page" : String) ≠ ""
       ∧ idsOk (env0.parse "page") = true
       ∧ env0.parse "page" ≠ []
       ∧ st0 "alice" = none)
    ∧ (∃ r, handle_account env0 cfg0 "alice" st0 = .ok r ∧
        ∃ t0, t0 ∈ env0.parse "page" ∧ r.1 "alice" = some t0.id ∧
          ∀ t ∈ env0.parse "page", pyInt t.id ≤ pyInt t0.id) :=
  ⟨C2_cursor_advance.1 env0 cfg0 "alice" st0 [post100] post101,
   ⟨rfl, by decide, by decide, by decide, rfl⟩,
   C2_cursor_advance.2 env0 cfg0 "alice" st0 "page" rfl (by decide) (by decide) (by decide) rfl⟩

/-! ### C3 -/

/-- C3: For every account, once a cursor value is stored, every later value
the program assigns to that account's cursor is numerically greater than or
equal to it — the cursor is never rewound, across the operations of a run
(each guarded `handle_account` call) and across whole runs. -/
theorem C3_cursor_never_rewound :
    (∀ (env : Env) (cfg : Cfg) (u : String) (st : StateMap) (c : String), st u = some c →
       ∃ c', (try_handle env cfg u st).1 u = some c' ∧ pyInt c ≤ pyInt c')
    ∧ (∀ (cfg : Cfg) (runs : List (Env × List String)) (st : StateMap) (u : String)
        (c : String), st u = some c →
       ∃ c', multi_run cfg runs st u = some c' ∧ pyInt c ≤ pyInt c') :=
  ⟨fun env cfg u st c h => try_handle_mono env cfg u st c h,
   fun cfg runs st u c h => multi_run_mono cfg u runs st c h⟩

/-- Witness for C3: account `alice` with stored cursor `50`, one
single-account run that advances it. -/
theorem C3_cursor_never_rewound_witness :
    (st1 "alice" = some "50"
     ∧ (∃ c', (try_handle env0 cfg0 "alice" st1).1 "alice" = some c'
         ∧ pyInt "50" ≤ pyInt c'))
    ∧ (∃ c', multi_run cfg0 [(env0, ["alice"])] st1 "alice" = some c'
        ∧ pyInt "50" ≤ pyInt c') :=
  ⟨⟨by decide, C3_cursor_never_rewound.1 env0 cfg0 "alice" st1 "50" (by decide)⟩,
   C3_cursor_never_rewound.2 cfg0 [(env0, ["alice"])] st1 "alice" "50" (by decide)⟩

/-! ### C7 -/

/-- The id of the last selected post bounds the id of every extracted
post: unselected posts are at most the cursor, which is below every
selected post. -/
theorem to_send_upper_bound (tweets : List Post) (lastSeen : Option String)
    (hne : to_send tweets lastSeen ≠ []) :
    ∀ t ∈ tweets, pyInt t.id ≤ pyInt ((to_send tweets lastSeen).getLast hne).id := by
  intro t ht
  by_cases hmem : t ∈ to_send tweets lastSeen
  · exact pyInt_le_getLast _ hne (to_send_sorted _ _) t hmem
  · cases lastSeen with
    | none => exact absurd (mem_to_send.mpr ⟨ht, newer_none t⟩) hmem
    | some c =>
      have hnt : ¬ (newer (some c) t = true) := fun hx => hmem (mem_to_send.mpr ⟨ht, hx⟩)
      have h1 : pyInt t.id ≤ pyInt c := le_of_not_lt fun hcc => hnt (newer_some.mpr hcc)
      have h2 := (mem_to_send.mp (List.getLast_mem hne)).2
      exact le_trans h1 (le_of_lt (newer_some.mp h2))

/-- C7: Processing the same extracted post list twice in succession for an
account (no new upstream posts between runs, state carried over) selects
zero new posts the second time: after one handling pass, re-running
selection with the updated cursor on the same posts yields the empty
sequence. -/
theorem C7_second_pass_selects_nothing (env : Env) (cfg : Cfg) (u : String) (st : StateMap)
    (html : String)
    (hf : env.fetch (nitter_user_url cfg u) = some html) (hh : html ≠ "")
    (hids : idsOk (env.parse html) = true) (hcur : cursorOk (st u) = true) :
    to_send (env.parse html) ((try_handle env cfg u st).1 u) = [] := by
  by_cases hne : env.parse html = []
  · rw [hne]
    simp [to_send, tweetsSorted]
  · have hmain := handle_account_ok env cfg u st html hf hh hne hids hcur
    unfold try_handle
    rw [hmain]
    by_cases hsel : (to_send (env.parse html) (st u)).isEmpty = true
    · rw [if_pos hsel]
      exact List.isEmpty_iff.mp hsel
    · rw [if_neg hsel]
      have hselne : to_send (env.parse html) (st u) ≠ [] := by
        intro h0
        exact hsel (by rw [h0]; rfl)
      have hstate : (process_posts env cfg u (to_send (env.parse html) (st u)) st).1 u
          = some ((to_send (env.parse html) (st u)).getLast hselne).id := by
        rw [process_posts_fst]
        exact foldl_setCursor_self u _ st hselne
      show to_send (env.parse html)
        ((process_posts env cfg u (to_send (env.parse html) (st u)) st).1 u) = []
      rw [hstate]
      unfold to_send
      rw [List.filter_eq_nil_iff]
      intro t ht hn
      rw [mem_tweetsSorted] at ht
      have hlt := newer_some.mp hn
      have hle := to_send_upper_bound (env.parse html) (st u) hselne t ht
      exact absurd hlt (not_lt.mpr hle)

/-- Witness for C7 at a concrete account and posts list. -/
theorem C7_second_pass_selects_nothing_witness :
    (env0.fetch (nitter_user_url cfg0 "alice") = some "page"
     ∧ ("page" : String) ≠ ""
     ∧ idsOk (env0.parse "page") = true
     ∧ cursorOk (st0 "alice") = true)
    ∧ to_send (env0.parse "page") ((try_handle env0 cfg0 "alice" st0).1 "alice") = [] :=
  ⟨⟨rfl, by decide, by decide, rfl⟩,
   C7_second_pass_selects_nothing env0 cfg0 "alice" st0 "page" rfl (by decide) (by decide) rfl⟩

/-! ### C4 -/

/-- C4: For every media item whose size probe reports a content length
strictly greater than the configured maximum byte size, the download step
is never invoked for that item; instead a text notice containing the
caption and that media URL is sent, the post is marked as sent, and
processing moves to the next media item. -/
theorem C4_probe_too_big_skips_download (env : Env) (cfg : Cfg)
    (username tid caption murl0 : String) (sentAny : Bool) (n : Int)
    (hsz : get_head_size (env.head (resolveMediaUrl cfg.base murl0)) = some n)
    (hgt : n > (cfg.maxBytes : Int)) :
    process_media_item env cfg username tid caption murl0 sentAny
      = (true, [Event.sendText (caption ++ "\n\nMedia too large to upload: "
          ++ resolveMediaUrl cfg.base murl0)])
    ∧ ∀ u d, Event.download u d
        ∉ (process_media_item env cfg username tid caption murl0 sentAny).2 := by
  have hmax : (0 : Int) ≤ (cfg.maxBytes : Int) := Int.natCast_nonneg _
  have hn0 : n ≠ 0 := by omega
  have hbig : tooBig (get_head_size (env.head (resolveMediaUrl cfg.base murl0)))
      cfg.maxBytes = true := by
    rw [hsz]
    simp [tooBig, hgt, hn0]
  have heq : process_media_item env cfg username tid caption murl0 sentAny
      = (true, [Event.sendText (caption ++ "\n\nMedia too large to upload: "
          ++ resolveMediaUrl cfg.base murl0)]) := by
    unfold process_media_item
    rw [hbig]
    simp
  refine ⟨heq, ?_⟩
  intro u d
  rw [heq]
  simp

/-- Witness for C4: a probe reporting 2000 bytes against a 1000-byte
ceiling. -/
theorem C4_probe_too_big_skips_download_witness :
    (get_head_size (envBig.head (resolveMediaUrl cfg0.base "/pic/a.jpg")) = some 2000
     ∧ (2000 : Int) > (cfg0.maxBytes : Int))
    ∧ (process_media_item envBig cfg0 "alice" "101" "cap" "/pic/a.jpg" false
        = (true, [Event.sendText ("cap" ++ "\n\nMedia too large to upload: "
            ++ resolveMediaUrl cfg0.base "/pic/a.jpg")])
       ∧ ∀ u d, Event.download u d
           ∉ (process_media_item envBig cfg0 "alice" "101" "cap" "/pic/a.jpg" false).2) :=
  ⟨⟨by decide, by decide⟩,
   C4_probe_too_big_skips_download envBig cfg0 "alice" "101" "cap" "/pic/a.jpg" false 2000
     (by decide) (by decide)⟩

/-! ### C5 -/

/-- If the accumulated written bytes exceed the ceiling at any point of the
chunk stream, the write loop aborts. -/
theorem writeChunks_false (maxB : Nat) :
    ∀ (chunks : List Nat) (k : Nat) (written : Nat),
    written ≤ maxB + 5*1024*1024 →
    written + (chunks.take k).sum > maxB + 5*1024*1024 →
    writeChunks maxB chunks written = false := by
  intro chunks
  induction chunks with
  | nil =>
    intro k written hle hgt
    exfalso
    simp at hgt
    omega
  | cons c cs ih =>
    intro k written hle hgt
    cases k with
    | zero =>
      exfalso
      simp at hgt
      omega
    | succ j =>
      rw [List.take_succ_cons, List.sum_cons] at hgt
      unfold writeChunks
      by_cases hc : c = 0
      · subst hc
        rw [if_pos rfl]
        exact ih j written hle (by omega)
      · rw [if_neg hc]
        by_cases hover : written + c > maxB + 5*1024*1024
        · rw [if_pos hover]
        · rw [if_neg hover]
          exact ih j (written + c) (by omega) (by omega)

/-- C5: For every media download whose accumulated written bytes exceed the
configured maximum plus the safety margin mid-stream, the download is
aborted and reported as failed, and the item is never forwarded to a
photo/video upload operation (no truncated file is sent). -/
theorem C5_oversize_stream_never_uploaded :
    (∀ (d : DLResult) (maxB : Nat), d.opened = true →
       (∃ k, (d.chunks.take k).sum > maxB + 5*1024*1024) →
       download_media d maxB = false)
    ∧ (∀ (env : Env) (cfg : Cfg) (username tid caption murl0 : String) (sentAny : Bool),
       download_media (env.dl (resolveMediaUrl cfg.base murl0)) cfg.maxBytes = false →
       ∀ e ∈ (process_media_item env cfg username tid caption murl0 sentAny).2,
         (∀ p c, e ≠ Event.sendPhoto p c) ∧ (∀ p c, e ≠ Event.sendVideo p c)) := by
  constructor
  · rintro d maxB hop ⟨k, hk⟩
    unfold download_media
    rw [hop]
    rw [writeChunks_false maxB d.chunks k 0 (by omega) (by omega)]
    rfl
  · intro env cfg username tid caption murl0 sentAny hdl e he
    unfold process_media_item at he
    split at he
    · simp at he
      subst he
      exact ⟨fun p c => nofun, fun p c => nofun⟩
    · split at he
      · simp at he
        rcases he with he | he <;> subst he
        · exact ⟨fun p c => nofun, fun p c => nofun⟩
        · exact ⟨fun p c => nofun, fun p c => nofun⟩
      · rename_i hcond
        exfalso
        apply hcond
        rw [hdl]
        rfl

/-- Witness for C5: a single 6 MiB chunk against a 1000-byte ceiling
(margin 5 MiB), and the resulting failed item. -/
theorem C5_oversize_stream_never_uploaded_witness :
    ((envAbort.dl (resolveMediaUrl cfg0.base "/pic/a.jpg")).opened = true
     ∧ ((envAbort.dl (resolveMediaUrl cfg0.base "/pic/a.jpg")).chunks.take 1).sum
         > cfg0.maxBytes + 5*1024*1024)
    ∧ download_media (envAbort.dl (resolveMediaUrl cfg0.base "/pic/a.jpg")) cfg0.maxBytes
        = false
    ∧ (∀ e ∈ (process_media_item envAbort cfg0 "alice" "101" "cap" "/pic/a.jpg" false).2,
        (∀ p c, e ≠ Event.sendPhoto p c) ∧ (∀ p c, e ≠ Event.sendVideo p c)) :=
  ⟨⟨by decide, by decide⟩,
   C5_oversize_stream_never_uploaded.1 (envAbort.dl (resolveMediaUrl cfg0.base "/pic/a.jpg"))
     cfg0.maxBytes (by decide) ⟨1, by decide⟩,
   C5_oversize_stream_never_uploaded.2 envAbort cfg0 "alice" "101" "cap" "/pic/a.jpg" false
     (by decide)⟩

/-! ### C9 -/

/-- C9: When a media download fails or is aborted mid-stream, the scoped
temporary file (possibly partially written) is left on disk: the unlink
cleanup runs only on the path where the download succeeded and an
upload/send attempt was made, so failed-download temp files are never
deleted by the program. -/
theorem C9_failed_download_never_unlinked :
    (∀ (env : Env) (cfg : Cfg) (username tid caption murl0 : String) (sentAny : Bool),
       download_media (env.dl (resolveMediaUrl cfg.base murl0)) cfg.maxBytes = false →
       ∀ p, Event.unlink p ∉ (process_media_item env cfg username tid caption murl0 sentAny).2)
    ∧ (∀ (env : Env) (cfg : Cfg) (username tid caption murl0 : String) (sentAny : Bool) (p : String),
       Event.unlink p ∈ (process_media_item env cfg username tid caption murl0 sentAny).2 →
       download_media (env.dl (resolveMediaUrl cfg.base murl0)) cfg.maxBytes = true
       ∧ (env.dl (resolveMediaUrl cfg.base murl0)).opened = true) := by
  constructor
  · intro env cfg username tid caption murl0 sentAny hdl p hmem
    unfold process_media_item at hmem
    split at hmem
    · simp at hmem
    · split at hmem
      · simp at hmem
      · rename_i hcond
        apply hcond
        rw [hdl]
        rfl
  · intro env cfg username tid caption murl0 sentAny p hmem
    unfold process_media_item at hmem
    split at hmem
    · simp at hmem
    · split at hmem
      · simp at hmem
      · rename_i hcond
        constructor
        · cases hok : download_media (env.dl (resolveMediaUrl cfg.base murl0)) cfg.maxBytes with
          | true => rfl
          | false => exact absurd (by rw [hok]; rfl) hcond
        · cases hop : (env.dl (resolveMediaUrl cfg.base murl0)).opened with
          | true => rfl
          | false => exact absurd (by rw [hop]; simp) hcond

/-- Witness for C9: a download whose request fails before the file is
opened; its item is never unlinked. -/
theorem C9_failed_download_never_unlinked_witness :
    download_media (envNoFile.dl (resolveMediaUrl cfg0.base "/pic/a.jpg")) cfg0.maxBytes = false
    ∧ Event.unlink "tmp_media/f"
        ∉ (process_media_item envNoFile cfg0 "alice" "101" "cap" "/pic/a.jpg" false).2 :=
  ⟨by decide,
   C9_failed_download_never_unlinked.1 envNoFile cfg0 "alice" "101" "cap" "/pic/a.jpg" false
     (by decide) "tmp_media/f"⟩

/-! ### C6 -/

theorem sendResult_snd_ne_save (env : Env) (f c m : String) (sa : Bool) :
    (sendResult env f c m sa).2 ≠ Event.save := by
  unfold sendResult
  split
  · nofun
  · split
    · nofun
    · nofun

theorem save_not_in_media_item (env : Env) (cfg : Cfg) (username tid caption m : String)
    (sa : Bool) : Event.save ∉ (process_media_item env cfg username tid caption m sa).2 := by
  unfold process_media_item
  split
  · simp
  · split
    · simp
    · intro h
      simp only [List.mem_cons, List.not_mem_nil] at h
      rcases h with h | h | h | h
      · exact Event.noConfusion h
      · exact sendResult_snd_ne_save _ _ _ _ _ h.symm
      · exact Event.noConfusion h
      · exact h

theorem save_not_in_media_list (env : Env) (cfg : Cfg) (username tid caption : String) :
    ∀ (ms : List String) (sa : Bool),
    Event.save ∉ (process_media_list env cfg username tid caption ms sa).2 := by
  intro ms
  induction ms with
  | nil => intro sa; simp [process_media_list]
  | cons m ms ih =>
    intro sa
    unfold process_media_list
    rw [List.mem_append]
    rintro (h | h)
    · exact save_not_in_media_item env cfg username tid caption m sa h
    · exact ih _ h

theorem save_not_in_post (env : Env) (cfg : Cfg) (u : String) (t : Post) :
    Event.save ∉ process_post env cfg u t := by
  unfold process_post
  split
  · simp
  · rw [List.mem_append]
    rintro (h | h)
    · exact save_not_in_media_list env cfg u t.id _ t.media false h
    · split at h
      · simp at h
      · simp only [List.mem_singleton] at h
        exact Event.noConfusion h

theorem save_not_in_posts (env : Env) (cfg : Cfg) (u : String) :
    ∀ (ts : List Post) (st : StateMap),
    Event.save ∉ (process_posts env cfg u ts st).2 := by
  intro ts
  induction ts with
  | nil => intro st; simp [process_posts]
  | cons t ts ih =>
    intro st
    unfold process_posts
    rw [List.mem_append]
    rintro (h | h)
    · exact save_not_in_post env cfg u t h
    · exact ih _ h

theorem save_not_in_try_handle (env : Env) (cfg : Cfg) (u : String) (st : StateMap) :
    Event.save ∉ (try_handle env cfg u st).2 := by
  unfold try_handle
  split
  · rename_i r hr
    unfold handle_account at hr
    split at hr
    · cases hr; simp
    · split at hr
      · cases hr; simp
      · split at hr
        · cases hr; simp
        · split at hr
          · cases hr
          · split at hr
            · cases hr
            · split at hr
              · cases hr; simp
              · cases hr; exact save_not_in_posts env cfg u _ st
  · simp

theorem save_not_in_runAccounts (env : Env) (cfg : Cfg) :
    ∀ (accs : List String) (st : StateMap),
    Event.save ∉ (runAccounts env cfg accs st).2 := by
  intro accs
  induction accs with
  | nil => intro st; simp [runAccounts]
  | cons a as ih =>
    intro st
    unfold runAccounts
    rw [List.mem_append]
    rintro (h | h)
    · exact save_not_in_try_handle env cfg a st h
    · exact ih _ h

theorem runAccounts_append_fst (env : Env) (cfg : Cfg) :
    ∀ (l₁ l₂ : List String) (st : StateMap),
    (runAccounts env cfg (l₁ ++ l₂) st).1
      = (runAccounts env cfg l₂ (runAccounts env cfg l₁ st).1).1 := by
  intro l₁
  induction l₁ with
  | nil => intro l₂ st; rfl
  | cons a as ih =>
    intro l₂ st
    show (runAccounts env cfg (as ++ l₂) (try_handle env cfg a st).1).1 = _
    rw [ih l₂ (try_handle env cfg a st).1]
    rfl

/-- C6 counterexample: with an empty accounts list, `main` logs an error
and returns before `load_state`/`save_state`; the cursor store is not
persisted at all, contradicting "persisted exactly once for every accounts
list". -/
theorem C6_counterexample :
    (main_run env0 cfg0 [] st0).2.count Event.save ≠ 1 := by
  show (List.count Event.save []) ≠ 1
  simp

/-- C6 (amended): For every run and every NON-EMPTY accounts list, an
unhandled exception while handling one account does not prevent the
remaining accounts from being processed, and after all accounts have been
iterated (whether each succeeded or failed) the cursor store is persisted
exactly once, as the final action; with an empty accounts list the run
returns early and does not persist at all. -/
theorem C6_failure_boundary_and_single_save :
    (∀ (env : Env) (cfg : Cfg) (accounts : List String) (st : StateMap), accounts ≠ [] →
       ((main_run env cfg accounts st).2.count Event.save = 1
        ∧ (main_run env cfg accounts st).2.getLast? = some Event.save))
    ∧ (∀ (env : Env) (cfg : Cfg) (pre : List String) (a : String) (post : List String)
        (st : StateMap),
       (main_run env cfg (pre ++ a :: post) st).1
         = (runAccounts env cfg post (try_handle env cfg a (runAccounts env cfg pre st).1).1).1)
    ∧ (∀ (env : Env) (cfg : Cfg) (a : String) (st : StateMap),
       handle_account env cfg a st = .error () → try_handle env cfg a st = (st, [])) := by
  refine ⟨?_, ?_, ?_⟩
  · intro env cfg accounts st hne
    have hE : accounts.isEmpty = false := by
      cases accounts with
      | nil => exact absurd rfl hne
      | cons a l => rfl
    unfold main_run
    rw [hE]
    simp only [Bool.false_eq_true, if_false]
    constructor
    · rw [List.count_append]
      rw [List.count_eq_zero.mpr (save_not_in_runAccounts env cfg accounts st)]
      rfl
    · exact List.getLast?_concat _
  · intro env cfg pre a post st
    have hne : (pre ++ a :: post).isEmpty = false := by
      cases pre with
      | nil => rfl
      | cons x l => rfl
    unfold main_run
    rw [hne]
    simp only [Bool.false_eq_true, if_false]
    rw [runAccounts_append_fst]
    rfl
  · intro env cfg a st h
    unfold try_handle
    rw [h]

/-- Witness for C6 (amended): account `a` raises (non-numeric tweet id) and
account `b` with no tweets is still processed; one save at the end. -/
theorem C6_failure_boundary_and_single_save_witness :
    (["a", "b"] ≠ ([] : List String)
     ∧ (main_run envErr cfg0 ["a", "b"] st0).2.count Event.save = 1
     ∧ (main_run envErr cfg0 ["a", "b"] st0).2.getLast? = some Event.save)
    ∧ (main_run envErr cfg0 (["a"] ++ "b" :: []) st0).1
        = (runAccounts envErr cfg0 [] (try_handle envErr cfg0 "b"
            (runAccounts envErr cfg0 ["a"] st0).1).1).1
    ∧ (handle_account envErr cfg0 "a" st0 = .error ()
       ∧ try_handle envErr cfg0 "a" st0 = (st0, [])) := by
  have herr : handle_account envErr cfg0 "a" st0 = .error () := by
    unfold handle_account
    show (if ("page" : String) = "" then _ else _) = _
    rw [if_neg (by decide)]
    rw [if_neg (by decide)]
    rw [if_pos (by decide)]
  refine ⟨⟨by decide, ?_, ?_⟩, ?_, herr, ?_⟩
  · exact (C6_failure_boundary_and_single_save.1 envErr cfg0 ["a", "b"] st0 (by decide)).1
  · exact (C6_failure_boundary_and_single_save.1 envErr cfg0 ["a", "b"] st0 (by decide)).2
  · exact C6_failure_boundary_and_single_save.2.1 envErr cfg0 ["a"] "b" [] st0
  · exact C6_failure_boundary_and_single_save.2.2 envErr cfg0 "a" st0 herr

/-! ### C8 -/

/-- C8 counterexample: a state file containing `3` parses as JSON (so
`json.loads` does not raise) but is not the serialized mapping; `load_state`
returns the number `3` unchecked instead of an empty mapping. -/
theorem C8_counterexample :
    load_state (some "3") loadsNum3 = Json.num 3
    ∧ (Json.num 3).isObj = false
    ∧ load_state (some "3") loadsNum3 ≠ Json.obj [] := by
  have h1 : load_state (some "3") loadsNum3 = Json.num 3 := by
    show (match loadsNum3 "3" with | none => Json.obj [] | some j => j) = Json.num 3
    have hl : loadsNum3 "3" = some (Json.num 3) := by
      unfold loadsNum3
      rw [if_pos rfl]
    rw [hl]
  refine ⟨h1, rfl, ?_⟩
  rw [h1]
  exact fun h => Json.noConfusion h

/-- C8 (amended): `load()` returns an empty mapping when the state file is
absent or its contents fail to parse as JSON (`json.loads` raises); when
the contents do parse as JSON the parsed document is returned as-is — the
stored mapping for a well-formed state file, but a parseable non-mapping
document (such as `3`) is returned unchanged rather than replaced by an
empty mapping.  It never raises. -/
theorem C8_load_state_amended (loads : String → Option Json) :
    load_state none loads = Json.obj []
    ∧ (∀ txt, loads txt = none → load_state (some txt) loads = Json.obj [])
    ∧ (∀ txt j, loads txt = some j → load_state (some txt) loads = j) := by
  refine ⟨rfl, ?_, ?_⟩
  · intro txt h
    show (match loads txt with | none => Json.obj [] | some j => j) = Json.obj []
    rw [h]
  · intro txt j h
    show (match loads txt with | none => Json.obj [] | some j0 => j0) = j
    rw [h]

/-- Witness for C8 (amended): an absent file, an unparseable file, and a
well-formed file carrying the number 3. -/
theorem C8_load_state_amended_witness :
    load_state none loadsNum3 = Json.obj []
    ∧ (loadsNum3 "junk" = none ∧ load_state (some "junk") loadsNum3 = Json.obj [])
    ∧ (loadsNum3 "3" = some (Json.num 3) ∧ load_state (some "3") loadsNum3 = Json.num 3) := by
  have hj : loadsNum3 "junk" = none := by
    unfold loadsNum3
    rw [if_neg (by decide)]
  have h3 : loadsNum3 "3" = some (Json.num 3) := by
    unfold loadsNum3
    rw [if_pos rfl]
  exact ⟨(C8_load_state_amended loadsNum3).1,
         ⟨hj, (C8_load_state_amended loadsNum3).2.1 "junk" hj⟩,
         ⟨h3, (C8_load_state_amended loadsNum3).2.2 "3" (Json.num 3) h3⟩⟩

/-- `handle_account` after a successful fetch, with the `Option` match
reduced away. -/
theorem handle_account_some (env : Env) (cfg : Cfg) (u : String) (st : StateMap) (html : String)
    (hf : env.fetch (nitter_user_url cfg u) = some html) :
    handle_account env cfg u st =
      (if html = "" then .ok (st, [])
       else if (env.parse html).isEmpty = true then .ok (st, [])
       else if (!idsOk (env.parse html)) = true then .error ()
       else if (!cursorOk (st u)) = true then .error ()
       else if (to_send (env.parse html) (st u)).isEmpty = true then .ok (st, [])
       else .ok (process_posts env cfg u (to_send (env.parse html) (st u)) st)) := by
  unfold handle_account
  rw [hf]

/-! ### C10 -/

/-- C10: Handling one account mutates at most that account's own entry in
the in-memory cursor mapping: every other account's entry is unchanged,
and the account's own entry is unchanged whenever the fetch fails, no
posts parse, or no posts are newer than the cursor. -/
theorem C10_handle_account_frame :
    (∀ (env : Env) (cfg : Cfg) (u u' : String) (st : StateMap), u' ≠ u →
       (try_handle env cfg u st).1 u' = st u')
    ∧ (∀ (env : Env) (cfg : Cfg) (u : String) (st : StateMap),
       env.fetch (nitter_user_url cfg u) = none → (try_handle env cfg u st).1 = st)
    ∧ (∀ (env : Env) (cfg : Cfg) (u : String) (st : StateMap) (html : String),
       env.fetch (nitter_user_url cfg u) = some html → env.parse html = [] →
       (try_handle env cfg u st).1 = st)
    ∧ (∀ (env : Env) (cfg : Cfg) (u : String) (st : StateMap) (html : String),
       env.fetch (nitter_user_url cfg u) = some html →
       to_send (env.parse html) (st u) = [] →
       (try_handle env cfg u st).1 = st) := by
  refine ⟨?_, ?_, ?_, ?_⟩
  · exact fun env cfg u u' st h => try_handle_frame env cfg u st u' h
  · intro env cfg u st hf
    unfold try_handle handle_account
    rw [hf]
  · intro env cfg u st html hf hp
    unfold try_handle
    rw [handle_account_some env cfg u st html hf]
    by_cases hh : html = ""
    · rw [if_pos hh]
    · rw [if_neg hh, hp]
      rfl
  · intro env cfg u st html hf hsel
    unfold try_handle
    rw [handle_account_some env cfg u st html hf]
    by_cases hh : html = ""
    · rw [if_pos hh]
    · rw [if_neg hh]
      by_cases hp : (env.parse html).isEmpty = true
      · rw [if_pos hp]
      · rw [if_neg hp]
        by_cases hi : (!idsOk (env.parse html)) = true
        · rw [if_pos hi]
        · rw [if_neg hi]
          by_cases hcu : (!cursorOk (st u)) = true
          · rw [if_pos hcu]
          · rw [if_neg hcu, hsel]
            rfl

/-- Witness for C10: another account's entry survives a handling pass; the
handled account's entry survives a failed fetch, an empty parse, and a
cursor ahead of every post. -/
theorem C10_handle_account_frame_witness :
    (("bob" : String) ≠ "alice"
     ∧ (try_handle env0 cfg0 "alice" st1).1 "bob" = st1 "bob")
    ∧ (envNoFetch.fetch (nitter_user_url cfg0 "alice") = none
       ∧ (try_handle envNoFetch cfg0 "alice" st1).1 = st1)
    ∧ (envNoTweets.parse "page" = []
       ∧ (try_handle envNoTweets cfg0 "alice" st1).1 = st1)
    ∧ (to_send (env0.parse "page") (st2 "alice") = []
       ∧ (try_handle env0 cfg0 "alice" st2).1 = st2) := by
  have hsel : to_send (env0.parse "page") (st2 "alice") = [] := by
    unfold to_send
    rw [List.filter_eq_nil_iff]
    intro t ht
    have hp : env0.parse "page" = [post101, post100] := rfl
    rw [mem_tweetsSorted, hp] at ht
    simp only [List.mem_cons, List.not_mem_nil, or_false] at ht
    rcases ht with rfl | rfl
    · decide
    · decide
  refine ⟨⟨by decide, ?_⟩, ⟨rfl, ?_⟩, ⟨rfl, ?_⟩, ⟨hsel, ?_⟩⟩
  · exact C10_handle_account_frame.1 env0 cfg0 "alice" "bob" st1 (by decide)
  · exact C10_handle_account_frame.2.1 envNoFetch cfg0 "alice" st1 rfl
  · exact C10_handle_account_frame.2.2.1 envNoTweets cfg0 "alice" st1 "page" rfl rfl
  · exact C10_handle_account_frame.2.2.2 env0 cfg0 "alice" st2 "page" rfl hsel
